import Mathlib

/-!
Verification of the transfer-agent core of the isahc HTTP client library.

This file gives a shallow embedding, in Lean, of the parts of the source that
the specification talks about:

* `src/context.rs` — `RequestContext` (write-once result cell + abort flag);
* `src/agent.rs` — `Handle::send_message` / `Drop for Handle`,
  `AgentContext::begin_request`, the message-processing loop, the socket
  registration drain in `AgentContext::wait`, and the poll-timeout computation;
* `src/internal/response.rs` — `ResponseFuture::poll`, `ResponseProducer`.

Rust panics are modelled explicitly: functions that can panic return a value
in `PanicOr`, whose `panic` constructor marks an unwinding execution.  Machine
details that the claims do not touch (the actual curl easy handle, the bytes
of a response body) are abstracted to opaque payloads (`Nat`, or the single
bit of a registration outcome), while all control flow is translated from the
source.
-/

namespace Isahc

/-- Abstract error values (`isahc::Error`).  The claims only require that
errors are inspectable and comparable; `aborted` mirrors `Error::Aborted`,
`curl n` an engine-reported error, `other` anything else. -/
inductive Error where
  | aborted
  | curl (code : Nat)
  | other (msg : String)
deriving DecidableEq, Repr

/-- Outcome of a Rust computation that may panic: `panic msg` marks an
unwinding execution, `ok a` a normal return. -/
inductive PanicOr (α : Type) where
  | panic (msg : String)
  | ok (a : α)
deriving DecidableEq, Repr

/-! ## RequestContext (`src/context.rs`) -/

/-- Model of `RequestContext` / its `Inner`: a write-once `result` cell
(`OnceCell<Result<(), Error>>`, modelled as an `Option` that is only ever
assigned when `none`) and the `aborted` atomic flag. -/
structure RequestContextM where
  result : Option (Except Error Unit)
  aborted : Bool

/-- `RequestContext::default()`: empty result cell, abort flag false. -/
def requestContextDefault : RequestContextM := ⟨none, false⟩

/-- `RequestContext::set_result`: `OnceCell::set` stores the value if the cell
is empty and returns `Ok(())`; otherwise it leaves the cell untouched and
returns `Err` carrying back the rejected value. -/
def RequestContextM.setResult (c : RequestContextM) (r : Except Error Unit) :
    RequestContextM × Except (Except Error Unit) Unit :=
  match c.result with
  | none => ({ c with result := some r }, Except.ok ())
  | some _ => (c, Except.error r)

/-- `RequestContext::abort`: store `true` into the `aborted` flag. -/
def RequestContextM.abort (c : RequestContextM) : RequestContextM :=
  { c with aborted := true }

/-- `RequestContext::is_aborted`: load the `aborted` flag. -/
def RequestContextM.isAborted (c : RequestContextM) : Bool :=
  c.aborted

/-- The operations a `RequestContext` admits after construction (used to state
that properties hold under every later interleaving of calls). -/
inductive CtxOp where
  | setRes (r : Except Error Unit)
  | doAbort

/-- Apply one `RequestContext` operation to the shared state. -/
def ctxStep (c : RequestContextM) : CtxOp → RequestContextM
  | CtxOp.setRes r => (c.setResult r).1
  | CtxOp.doAbort => c.abort

/-- Apply a sequence of `RequestContext` operations. -/
def ctxRun (c : RequestContextM) : List CtxOp → RequestContextM
  | [] => c
  | op :: ops => ctxRun (ctxStep c op) ops

/-- `abort()` called `n` times in a row. -/
def abortIter (c : RequestContextM) : Nat → RequestContextM
  | 0 => c
  | n + 1 => abortIter c.abort n

lemma ctxStep_result_mono (c : RequestContextM) (v : Except Error Unit)
    (op : CtxOp) (h : c.result = some v) : (ctxStep c op).result = some v := by
  cases op with
  | setRes r => simp [ctxStep, RequestContextM.setResult, h]
  | doAbort => simpa [ctxStep, RequestContextM.abort] using h

lemma ctxRun_result_mono (ops : List CtxOp) (c : RequestContextM)
    (v : Except Error Unit) (h : c.result = some v) :
    (ctxRun c ops).result = some v := by
  induction ops generalizing c with
  | nil => simpa [ctxRun] using h
  | cons op ops ih => exact ih _ (ctxStep_result_mono c v op h)

lemma abort_abort (c : RequestContextM) : c.abort.abort = c.abort := by
  simp [RequestContextM.abort]

lemma abortIter_abort (n : Nat) (c : RequestContextM) :
    abortIter c.abort n = c.abort := by
  induction n generalizing c with
  | zero => rfl
  | succ n ih => simpa [abortIter, abort_abort] using ih c

/-! ## Poll timeout computation (`AgentContext::wait`, `src/agent.rs:529`) -/

/-- `WAIT_TIMEOUT`, in milliseconds (`src/agent.rs:29`). -/
def WAIT_TIMEOUT_MS : Nat := 100

/-- The timeout actually passed to `poller.wait`, from
`self.multi.get_timeout()?.map(|t| t.min(WAIT_TIMEOUT)).unwrap_or(WAIT_TIMEOUT)`.
The argument is the engine-preferred timeout in milliseconds (`none` means the
engine asks to wait indefinitely). -/
def pollWaitTimeout (engineTimeout : Option Nat) : Nat :=
  match engineTimeout with
  | some t => min t WAIT_TIMEOUT_MS
  | none => WAIT_TIMEOUT_MS

/-! ## Claim theorems (context and timeout) -/

/-- C4: `RequestContext.result` is write-once.  The first `set_result` on an
unset cell stores the value and reports success; any `set_result` on a set
cell fails, handing the value back, and leaves the state unchanged; once the
cell holds a value, every later sequence of operations still observes that
same value; a fresh context observes `none`. -/
theorem setResult_write_once (c : RequestContextM) (r v : Except Error Unit)
    (ops : List CtxOp) :
    (c.result = none → c.setResult r = ({ c with result := some r }, Except.ok ()))
    ∧ (c.result = some v → c.setResult r = (c, Except.error r))
    ∧ (c.result = some v → (ctxRun c ops).result = some v)
    ∧ requestContextDefault.result = none := by
  refine ⟨fun h => ?_, fun h => ?_, fun h => ctxRun_result_mono ops c v h, rfl⟩
  · simp [RequestContextM.setResult, h]
  · simp [RequestContextM.setResult, h]

/-- C4 witness: evaluating the write-once property on concrete contexts. -/
theorem setResult_write_once_witness :
    (RequestContextM.setResult ⟨none, false⟩ (Except.ok ()) =
      (⟨some (Except.ok ()), false⟩, Except.ok ()))
    ∧ (RequestContextM.setResult ⟨some (Except.ok ()), false⟩ (Except.error Error.aborted) =
      (⟨some (Except.ok ()), false⟩, Except.error (Except.error Error.aborted)))
    ∧ (ctxRun ⟨some (Except.ok ()), false⟩ [CtxOp.doAbort, CtxOp.setRes (Except.error Error.aborted)]).result
      = some (Except.ok ()) := by
  have h1 := setResult_write_once ⟨none, false⟩ (Except.ok ()) (Except.ok ()) []
  have h2 := setResult_write_once ⟨some (Except.ok ()), false⟩ (Except.error Error.aborted)
    (Except.ok ()) [CtxOp.doAbort, CtxOp.setRes (Except.error Error.aborted)]
  exact ⟨h1.1 rfl, h2.2.1 rfl, h2.2.2.1 rfl⟩

/-- C9: `RequestContext::abort` is idempotent.  Calling `abort` `n ≥ 1` times
yields exactly the state of calling it once; after the first call
`is_aborted` observes `true`; the `result` cell is untouched by `abort`. -/
theorem abort_idempotent (c : RequestContextM) (n : Nat) (h : 1 ≤ n) :
    abortIter c n = c.abort
    ∧ (c.abort).isAborted = true
    ∧ (c.abort).result = c.result := by
  refine ⟨?_, rfl, rfl⟩
  cases n with
  | zero => exact absurd h (by decide)
  | succ m => simpa [abortIter] using abortIter_abort m c

/-- C9 witness: three aborts on a fresh context equal a single abort. -/
theorem abort_idempotent_witness :
    abortIter ⟨none, false⟩ 3 = RequestContextM.abort ⟨none, false⟩
    ∧ (RequestContextM.abort ⟨none, false⟩).isAborted = true := by
  have h := abort_idempotent ⟨none, false⟩ 3 (by decide)
  exact ⟨h.1, h.2.1⟩

/-- C5: the timeout passed to the poller never exceeds `WAIT_TIMEOUT`
(100 ms); it equals the engine-preferred timeout when that is at most 100 ms,
and equals exactly 100 ms when the engine prefers more or reports no timeout. -/
theorem pollWaitTimeout_spec (o : Option Nat) :
    pollWaitTimeout o ≤ WAIT_TIMEOUT_MS
    ∧ (∀ t, o = some t → t ≤ WAIT_TIMEOUT_MS → pollWaitTimeout o = t)
    ∧ (∀ t, o = some t → WAIT_TIMEOUT_MS < t → pollWaitTimeout o = WAIT_TIMEOUT_MS)
    ∧ (o = none → pollWaitTimeout o = WAIT_TIMEOUT_MS) := by
  refine ⟨?_, fun t ht hle => ?_, fun t ht hlt => ?_, fun h => ?_⟩
  · cases o with
    | none => simp [pollWaitTimeout]
    | some t => simp [pollWaitTimeout]
  · subst ht
    simp [pollWaitTimeout, Nat.min_eq_left hle]
  · subst ht
    simp [pollWaitTimeout, Nat.min_eq_right (Nat.le_of_lt hlt)]
  · subst h
    rfl

/-- C5 witness: the cap evaluated at 40 ms, 250 ms, and a missing timeout. -/
theorem pollWaitTimeout_spec_witness :
    pollWaitTimeout (some 40) = 40
    ∧ pollWaitTimeout (some 250) = 100
    ∧ pollWaitTimeout none = 100 := by
  refine ⟨(pollWaitTimeout_spec (some 40)).2.1 40 rfl (by decide), ?_, ?_⟩
  · exact (pollWaitTimeout_spec (some 250)).2.2.1 250 rfl (by decide)
  · exact (pollWaitTimeout_spec none).2.2.2 rfl

/-! ## ResponseFuture / ResponseProducer (`src/internal/response.rs`) -/

/-- An HTTP response as assembled by `ResponseProducer::finish`: the buffered
status code, version, and header list, plus an opaque body payload. -/
structure Response where
  status : Nat
  version : Nat
  headers : List (String × String)
  body : Nat
deriving DecidableEq, Repr

/-- Poll result of a future (`std::task::Poll`). -/
inductive PollRes (α : Type) where
  | pending
  | ready (a : α)
deriving DecidableEq, Repr

/-- State of the one-shot channel as seen from the receiving side, modelling
`futures::channel::oneshot::Receiver` (an external crate, a black box to this
repository): `pending` — sender alive, nothing sent; `sent a` — a value is
waiting; `canceled` — the sender was dropped without sending; `taken` — the
value was already yielded by an earlier poll. -/
inductive RecvState (α : Type) where
  | pending
  | sent (a : α)
  | canceled
  | taken
deriving DecidableEq, Repr

/-- Poll of the one-shot receiver, per the `futures` oneshot semantics: a
waiting value is yielded once (`Ok`) and the channel becomes `taken`; a
canceled or already-drained channel yields `Err(Canceled)` (never a panic);
otherwise the poll is pending.  `Except Unit α` stands for
`Result<α, Canceled>`. -/
def recvPoll {α : Type} : RecvState α → RecvState α × PollRes (Except Unit α)
  | RecvState.pending => (RecvState.pending, PollRes.pending)
  | RecvState.sent a => (RecvState.taken, PollRes.ready (Except.ok a))
  | RecvState.canceled => (RecvState.canceled, PollRes.ready (Except.error ()))
  | RecvState.taken => (RecvState.taken, PollRes.ready (Except.error ()))

/-- Model of `ResponseFuture`: the `completed` flag and the one-shot receiver
carrying `Result<Response<Body>, Error>` (here `Except Error Response`). -/
structure ResponseFutureM where
  completed : Bool
  receiver : RecvState (Except Error Response)

/-- `ResponseFuture::poll`: poll the receiver; on `Pending` stay pending; on
`Ready(result)` set `completed` to true and yield the sent value on `Ok`, or
`Err(Error::Aborted)` when the receiver reports `Canceled`. -/
def ResponseFutureM.poll (f : ResponseFutureM) :
    ResponseFutureM × PollRes (Except Error Response) :=
  match recvPoll f.receiver with
  | (r, PollRes.pending) => ({ f with receiver := r }, PollRes.pending)
  | (r, PollRes.ready res) =>
    ({ completed := true, receiver := r },
      match res with
      | Except.ok v => PollRes.ready v
      | Except.error () => PollRes.ready (Except.error Error.aborted))

/-- The three externally visible producer states
(`ResponseState` in `src/internal/response.rs`). -/
inductive ResponseState where
  | active
  | canceled
  | completed
deriving DecidableEq, Repr

/-- Model of `ResponseProducer`: `sender` is `some isCanceled` while the
one-shot sender is still held (`isCanceled` mirrors `Sender::is_canceled`,
true when the paired receiver has been closed or dropped) and `none` once the
sender has been consumed by a send; plus the buffered status code, version,
and headers. -/
structure ProducerM where
  sender : Option Bool
  status_code : Option Nat
  version : Option Nat
  headers : List (String × String)
deriving DecidableEq, Repr

/-- `ResponseProducer::state`: `Completed` once the sender is consumed,
otherwise `Canceled`/`Active` according to `sender.is_canceled()`. -/
def ProducerM.state (p : ProducerM) : ResponseState :=
  match p.sender with
  | some isCanceled => if isCanceled then ResponseState.canceled else ResponseState.active
  | none => ResponseState.completed

/-- The panic message of `Option::unwrap` on `None`. -/
def unwrapNoneMsg : String := "called Option::unwrap on a None value"

/-- `ResponseProducer::finish(body)`: unwraps the buffered status code and
version (panicking if either is absent, as `self.status_code.take().unwrap()`
does), drains the headers into the response, then takes the sender and sends
the response; returns true iff the receiver accepted it.  After a
non-panicking run the producer is left with `sender`, `status_code` and
`version` all taken and `headers` drained. -/
def ProducerM.finish (p : ProducerM) (body : Nat) : PanicOr (ProducerM × Bool) :=
  match p.status_code with
  | none => PanicOr.panic unwrapNoneMsg
  | some sc =>
    match p.version with
    | none => PanicOr.panic unwrapNoneMsg
    | some v =>
      let _response : Response := ⟨sc, v, p.headers, body⟩
      match p.sender with
      | some isCanceled => PanicOr.ok (⟨none, none, none, []⟩, !isCanceled)
      | none => PanicOr.ok (⟨none, none, none, []⟩, false)

/-- `ResponseProducer::complete_with_error(e)`: takes the sender and sends the
error; returns true iff the receiver accepted it; returns false if the sender
was already consumed.  Never unwraps the buffered fields. -/
def ProducerM.complete_with_error (p : ProducerM) (_e : Error) : ProducerM × Bool :=
  match p.sender with
  | some isCanceled => ({ p with sender := none }, !isCanceled)
  | none => (p, false)

/-! ## Claim theorems (response future and producer) -/

/-- C7: `ResponseFuture::poll` yields the sent value (setting `completed`)
when the one-shot receiver holds one, yields `Err(Error::Aborted)` when the
receiver reports `Canceled` (paired producer dropped without sending), and
returns `Pending` otherwise. -/
theorem responseFuture_poll_spec (f : ResponseFutureM) (v : Except Error Response) :
    (f.receiver = RecvState.sent v →
      f.poll = (⟨true, RecvState.taken⟩, PollRes.ready v))
    ∧ (f.receiver = RecvState.canceled →
      f.poll = (⟨true, RecvState.canceled⟩, PollRes.ready (Except.error Error.aborted)))
    ∧ (f.receiver = RecvState.pending → f.poll = (f, PollRes.pending)) := by
  refine ⟨fun h => ?_, fun h => ?_, fun h => ?_⟩
  · cases v with
    | ok r => simp [ResponseFutureM.poll, recvPoll, h]
    | error e => simp [ResponseFutureM.poll, recvPoll, h]
  · simp [ResponseFutureM.poll, recvPoll, h]
  · cases f with
    | mk completed receiver =>
      cases h
      simp [ResponseFutureM.poll, recvPoll]

/-- C7 witness: polling a future whose channel holds a concrete response, a
canceled future, and a pending future. -/
theorem responseFuture_poll_spec_witness :
    ResponseFutureM.poll ⟨false, RecvState.sent (Except.ok ⟨200, 11, [], 0⟩)⟩
      = (⟨true, RecvState.taken⟩, PollRes.ready (Except.ok ⟨200, 11, [], 0⟩))
    ∧ ResponseFutureM.poll ⟨false, RecvState.canceled⟩
      = (⟨true, RecvState.canceled⟩, PollRes.ready (Except.error Error.aborted))
    ∧ ResponseFutureM.poll ⟨false, RecvState.pending⟩
      = (⟨false, RecvState.pending⟩, PollRes.pending) := by
  refine ⟨?_, ?_, ?_⟩
  · exact (responseFuture_poll_spec ⟨false, RecvState.sent (Except.ok ⟨200, 11, [], 0⟩)⟩
      (Except.ok ⟨200, 11, [], 0⟩)).1 rfl
  · exact (responseFuture_poll_spec ⟨false, RecvState.canceled⟩
      (Except.ok ⟨200, 11, [], 0⟩)).2.1 rfl
  · exact (responseFuture_poll_spec ⟨false, RecvState.pending⟩
      (Except.ok ⟨200, 11, [], 0⟩)).2.2 rfl

/-- C8: polling a `ResponseFuture` that already resolved does not panic,
whatever the prior resolution was: the re-poll is a normal return, namely
`Ready(Err(Error::Aborted))` (the drained one-shot receiver reports
`Canceled`), and leaves the future state unchanged. -/
theorem responseFuture_repoll_safe (f fr : ResponseFutureM)
    (r : Except Error Response)
    (h : f.poll = (fr, PollRes.ready r)) :
    fr.poll = (fr, PollRes.ready (Except.error Error.aborted)) := by
  cases f with
  | mk completed receiver =>
    cases receiver with
    | pending => simp [ResponseFutureM.poll, recvPoll] at h
    | sent a =>
      cases a with
      | ok v =>
        simp [ResponseFutureM.poll, recvPoll] at h
        rw [← h.1]
        simp [ResponseFutureM.poll, recvPoll]
      | error _e =>
        simp [ResponseFutureM.poll, recvPoll] at h
        rw [← h.1]
        simp [ResponseFutureM.poll, recvPoll]
    | canceled =>
      simp [ResponseFutureM.poll, recvPoll] at h
      rw [← h.1]
      simp [ResponseFutureM.poll, recvPoll]
    | taken =>
      simp [ResponseFutureM.poll, recvPoll] at h
      rw [← h.1]
      simp [ResponseFutureM.poll, recvPoll]

/-- C8 witness: a future resolved with a concrete response is polled again and
returns `Ready(Err(Aborted))` without panicking. -/
theorem responseFuture_repoll_safe_witness :
    ResponseFutureM.poll ⟨true, RecvState.taken⟩
      = (⟨true, RecvState.taken⟩, PollRes.ready (Except.error Error.aborted)) :=
  responseFuture_repoll_safe ⟨false, RecvState.sent (Except.ok ⟨200, 11, [], 0⟩)⟩
    ⟨true, RecvState.taken⟩ (Except.ok ⟨200, 11, [], 0⟩) rfl

/-- C10 counterexample: a first `finish` on a producer holding a status code
and version succeeds and consumes the buffered fields, so a second `finish`
panics on the `status_code` unwrap instead of returning false as the claim
states. -/
theorem finish_twice_counterexample :
    ProducerM.finish ⟨some false, some 200, some 11, []⟩ 7
      = PanicOr.ok (⟨none, none, none, []⟩, true)
    ∧ ProducerM.finish ⟨none, none, none, []⟩ 7 = PanicOr.panic unwrapNoneMsg := by
  exact ⟨rfl, rfl⟩

/-- C10 (amended): `finish` panics if the status code or the version has not
been recorded; when both are present it consumes the sender even if the
receiver is closed, reporting true iff the receiver was still open, and the
producer thereafter reports `Completed` and refuses `complete_with_error`
(returning false without changing state) — while a second `finish` panics,
the buffered status and version having been taken by the first call. -/
theorem finish_spec (p : ProducerM) (body : Nat) (sc v : Nat) (e : Error) :
    (p.status_code = none → p.finish body = PanicOr.panic unwrapNoneMsg)
    ∧ (p.status_code = some sc → p.version = none →
        p.finish body = PanicOr.panic unwrapNoneMsg)
    ∧ (p.status_code = some sc → p.version = some v →
        (p.finish body = PanicOr.ok (⟨none, none, none, []⟩, decide (p.sender = some false))
          ∧ ProducerM.state ⟨none, none, none, []⟩ = ResponseState.completed
          ∧ ProducerM.complete_with_error ⟨none, none, none, []⟩ e
              = (⟨none, none, none, []⟩, false)
          ∧ ProducerM.finish ⟨none, none, none, []⟩ body = PanicOr.panic unwrapNoneMsg)) := by
  refine ⟨fun h => ?_, fun h1 h2 => ?_, fun h1 h2 => ?_⟩
  · simp [ProducerM.finish, h]
  · simp [ProducerM.finish, h1, h2]
  · refine ⟨?_, rfl, rfl, rfl⟩
    cases hs : p.sender with
    | none => simp [ProducerM.finish, h1, h2, hs]
    | some isCanceled =>
      cases isCanceled with
      | false => simp [ProducerM.finish, h1, h2, hs]
      | true => simp [ProducerM.finish, h1, h2, hs]

/-- C10 witness: a producer with status 404, version 11, and a closed receiver
is finished once (consuming the sender, returning false), after which its
state is `Completed` and `complete_with_error` returns false; a producer with
no status panics. -/
theorem finish_spec_witness :
    ProducerM.finish ⟨some true, some 404, some 11, []⟩ 3
      = PanicOr.ok (⟨none, none, none, []⟩, false)
    ∧ ProducerM.state ⟨none, none, none, []⟩ = ResponseState.completed
    ∧ ProducerM.complete_with_error ⟨none, none, none, []⟩ Error.aborted
      = (⟨none, none, none, []⟩, false)
    ∧ ProducerM.finish ⟨some false, none, none, []⟩ 3
      = PanicOr.panic unwrapNoneMsg := by
  have h := (finish_spec ⟨some true, some 404, some 11, []⟩ 3 404 11 Error.aborted).2.2
    rfl rfl
  have h0 := (finish_spec ⟨some false, none, none, []⟩ 3 404 11 Error.aborted).1
  exact ⟨by simpa using h.1, h.2.1, h.2.2.1, h0 rfl⟩

/-! ## Handle and agent message loop (`src/agent.rs`) -/

/-- The abstraction of an `Execute` payload that `begin_request` observes: the
combined outcome of registering the prepared easy handle with the engine
(`multi.add2` followed by `set_token`).  `Except.ok ()` means registration
succeeds; `Except.error e` means it fails with `e`. -/
abbrev RegOutcome := Except Error Unit

/-- A message sent from a handle to the agent thread (`enum Message`). -/
inductive AgentMsg where
  | close
  | execute (reg : RegOutcome)
  | unpauseRead (token : Nat)
  | unpauseWrite (token : Nat)

/-- What `JoinHandle::join` on the agent thread yields: the thread returned
`Ok(())`, returned `Err(e)`, or panicked. -/
inductive ThreadOutcome where
  | ok
  | err (e : Error)
  | panicked
deriving DecidableEq, Repr

/-- The result of `Handle::try_join` (`enum JoinResult`). -/
inductive JoinResult where
  | alreadyJoined
  | ok
  | err (e : Error)
  | panic
deriving DecidableEq, Repr

/-- Model of `Handle` together with the observable side effects of its calls:
`connected` is true while the agent thread still holds the message receiver
(it is dropped exactly when the thread function finishes); `threadOutcome` is
what joining the thread yields (for a still-connected handle, the eventual
value the blocking join returns); `joinTaken` mirrors the `Option` in the
`join_handle` mutex; `queue` records the messages successfully enqueued on
the channel and `wakes` the number of `waker.wake_by_ref()` calls. -/
structure HandleM where
  connected : Bool
  threadOutcome : ThreadOutcome
  joinTaken : Bool
  queue : List AgentMsg
  wakes : Nat

/-- `Handle::try_join`: take the join handle out of the mutex slot (if still
present) and join, translating the three join outcomes; report
`AlreadyJoined` when the slot is empty. -/
def HandleM.tryJoin (h : HandleM) : JoinResult × HandleM :=
  if h.joinTaken then (JoinResult.alreadyJoined, h)
  else
    (match h.threadOutcome with
      | ThreadOutcome.ok => JoinResult.ok
      | ThreadOutcome.err e => JoinResult.err e
      | ThreadOutcome.panicked => JoinResult.panic,
      { h with joinTaken := true })

/-- Result of `Handle::send_message`: the source either returns `Ok(())` or
panics — there is no error return.  `panicked cause` records which join
outcome the panic message reports (`agent thread terminated with error`,
`agent thread panicked`, or `agent thread terminated prematurely`). -/
inductive SendResult where
  | ok
  | panicked (cause : JoinResult)

/-- `Handle::send_message`: if the channel still has its receiver, enqueue the
message, wake the agent thread, and return `Ok(())`.  If the channel is
disconnected, consult `try_join` and panic with a message naming the join
outcome — no error value is ever returned. -/
def HandleM.sendMessage (h : HandleM) (m : AgentMsg) : HandleM × SendResult :=
  if h.connected then
    ({ h with queue := h.queue ++ [m], wakes := h.wakes + 1 }, SendResult.ok)
  else
    let (jr, h1) := h.tryJoin
    (h1, SendResult.panicked jr)

/-- `Handle::submit_request`: `send_message(Message::Execute(request))`. -/
def HandleM.submitRequest (h : HandleM) (reg : RegOutcome) : HandleM × SendResult :=
  h.sendMessage (AgentMsg.execute reg)

/-- Observable outcome of `Drop for Handle`: either the drop returns,
recording the join outcome it logged, or it panics (a panic propagating out
of `send_message`). -/
inductive DropOutcome where
  | returned (logged : JoinResult)
  | panicked (cause : JoinResult)

/-- `Drop for Handle`: send `Message::Close` (a panic in `send_message`
propagates out of `drop`); on success, `try_join` and log the outcome. -/
def HandleM.dropHandle (h : HandleM) : DropOutcome :=
  match h.sendMessage AgentMsg.close with
  | (h1, SendResult.ok) => DropOutcome.returned (h1.tryJoin).1
  | (_, SendResult.panicked c) => DropOutcome.panicked c

/-! ## begin_request and the message-processing loop -/

/-- Type of the transfer slab (`Slab<Easy2Handle<RequestHandler>>`), with the
stored engine handles abstracted to `Unit`:slot `i` is `some ()` when an
in-flight transfer occupies it. -/
abbrev RequestSlab := List (Option Unit)

/-- First vacant key of a slab (`Slab::vacant_entry().key()`): the lowest
index holding no value, or the current length when the slab is full. -/
def slabVacantKey {α : Type} : List (Option α) → Nat
  | [] => 0
  | none :: _ => 0
  | some _ :: rest => slabVacantKey rest + 1

/-- Insert a value at the first vacant slot of a slab (`Slab::insert`, or
`vacant_entry()` followed by `entry.insert`). -/
def slabInsert {α : Type} : List (Option α) → α → List (Option α)
  | [], a => [some a]
  | none :: rest, a => some a :: rest
  | some b :: rest, a => some b :: slabInsert rest a

/-- Read slot `k` of a slab (`Slab::get`). -/
def slabGet {α : Type} : List (Option α) → Nat → Option α
  | [], _ => none
  | x :: _, 0 => x
  | _ :: rest, k + 1 => slabGet rest k

/-- Remove the value at slot `k` of a slab (`Slab::remove`), leaving the slot
vacant for reuse. -/
def slabRemove {α : Type} : List (Option α) → Nat → List (Option α)
  | [], _ => []
  | _ :: rest, 0 => none :: rest
  | b :: rest, k + 1 => b :: slabRemove rest k

/-- A call the agent makes into a transfer handler. -/
inductive HandlerEvent where
  | onResult (id : Nat) (result : Except Error Unit)

/-- Result of `AgentContext::begin_request`: the transfer slab afterwards, the
handler callbacks invoked during the call, and the returned value. -/
structure BeginResult where
  requests : RequestSlab
  handlerEvents : List HandlerEvent
  outcome : Except Error Unit

/-- `AgentContext::begin_request`: reserve the first vacant slab slot to
obtain `id`, initialise the handler with `id` and the two chained wakers,
then register with the engine (`multi.add2` + `set_token`, abstracted by the
message payload `reg`).  On success the engine-owned handle is inserted into
the reserved slot; on failure the `?` operator returns the error — the
reserved entry is dropped un-inserted (slab unchanged) and no handler
callback is invoked. -/
def beginRequest (requests : RequestSlab) (reg : RegOutcome) : BeginResult :=
  let _id := slabVacantKey requests
  match reg with
  | Except.error e => ⟨requests, [], Except.error e⟩
  | Except.ok () => ⟨slabInsert requests (), [], Except.ok ()⟩

/-- Loop state threaded through `AgentContext::poll_messages`. -/
structure LoopState where
  requests : RequestSlab
  closeRequested : Bool
  events : List HandlerEvent

/-- `AgentContext::handle_message`: `Close` sets the close flag; `Execute`
runs `begin_request`, propagating its error with `?`; `UnpauseRead` /
`UnpauseWrite` resume the transfer if it is still in the slab, logging (but
not failing on) unpause errors and unknown tokens. -/
def handleMessage (st : LoopState) : AgentMsg → Except Error LoopState
  | AgentMsg.close => Except.ok { st with closeRequested := true }
  | AgentMsg.execute reg =>
    let b := beginRequest st.requests reg
    match b.outcome with
    | Except.error e => Except.error e
    | Except.ok () =>
      Except.ok { st with requests := b.requests, events := st.events ++ b.handlerEvents }
  | AgentMsg.unpauseRead _ => Except.ok st
  | AgentMsg.unpauseWrite _ => Except.ok st

/-- The message-draining loop of `AgentContext::poll_messages` / `run`,
processing the messages pending on the channel in order: it stops once
`close_requested` is set, and an error from `handle_message` propagates with
`?`, making `run` return that error (the loop exits without touching the
remaining messages). -/
def processMessages (st : LoopState) : List AgentMsg → Except Error LoopState
  | [] => Except.ok st
  | m :: rest =>
    if st.closeRequested then Except.ok st
    else
      match handleMessage st m with
      | Except.error e => Except.error e
      | Except.ok st1 => processMessages st1 rest

/-! ## Claim theorems (handle and agent loop) -/

/-- C1: evaluation of `Handle::submit_request` at the failing input.  On a
handle whose agent thread has exited with an error (message channel
disconnected), the call panics — reporting the join outcome in the panic
message — instead of returning a submission error as the claim (and the
source doc comment of `send_message`) states.  On a live handle it enqueues
`Execute`, wakes the agent once, and returns `Ok(())` as claimed. -/
theorem submitRequest_disconnected_panics :
    HandleM.submitRequest ⟨false, ThreadOutcome.err (Error.curl 7), false, [], 0⟩ (Except.ok ())
      = (⟨false, ThreadOutcome.err (Error.curl 7), true, [], 0⟩,
        SendResult.panicked (JoinResult.err (Error.curl 7)))
    ∧ HandleM.submitRequest ⟨false, ThreadOutcome.panicked, false, [], 0⟩ (Except.ok ())
      = (⟨false, ThreadOutcome.panicked, true, [], 0⟩,
        SendResult.panicked JoinResult.panic)
    ∧ HandleM.submitRequest ⟨false, ThreadOutcome.ok, false, [], 0⟩ (Except.ok ())
      = (⟨false, ThreadOutcome.ok, true, [], 0⟩, SendResult.panicked JoinResult.ok)
    ∧ HandleM.submitRequest ⟨true, ThreadOutcome.ok, false, [], 0⟩ (Except.ok ())
      = (⟨true, ThreadOutcome.ok, false, [AgentMsg.execute (Except.ok ())], 1⟩,
        SendResult.ok) :=
  ⟨rfl, rfl, rfl, rfl⟩

/-- C2: evaluation of `Drop for Handle` at the failing inputs.  Dropping a
handle whose agent thread has already exited (cleanly, with an error, or by
panic) panics, because `send_message(Message::Close)` panics on the
disconnected channel before drop can log anything — contradicting the claim
that drop never panics.  Dropping a handle whose agent is still running
returns normally, only logging the join outcome. -/
theorem dropHandle_after_exit_panics :
    HandleM.dropHandle ⟨false, ThreadOutcome.ok, false, [], 0⟩
      = DropOutcome.panicked JoinResult.ok
    ∧ HandleM.dropHandle ⟨false, ThreadOutcome.err (Error.curl 7), false, [], 0⟩
      = DropOutcome.panicked (JoinResult.err (Error.curl 7))
    ∧ HandleM.dropHandle ⟨false, ThreadOutcome.panicked, false, [], 0⟩
      = DropOutcome.panicked JoinResult.panic
    ∧ HandleM.dropHandle ⟨true, ThreadOutcome.ok, false, [], 0⟩
      = DropOutcome.returned JoinResult.ok :=
  ⟨rfl, rfl, rfl, rfl⟩

/-- C3 counterexample: with an empty transfer slab and an `Execute` whose
registration fails with `curl 3`, `begin_request` invokes no handler callback
(so `on_result` is not called with the error), and the loop propagates the
error without processing the next message (so it does not continue running) —
refuting the claim at this input. -/
theorem beginRequest_failure_counterexample :
    (beginRequest [] (Except.error (Error.curl 3))).handlerEvents = []
    ∧ processMessages ⟨[], false, []⟩
        [AgentMsg.execute (Except.error (Error.curl 3)), AgentMsg.execute (Except.ok ())]
      = Except.error (Error.curl 3) :=
  ⟨rfl, rfl⟩

/-- C3 (amended): when registration of an `Execute` fails, the reserved slab
slot is abandoned (the transfer slab is unchanged), no handler callback —
in particular no `on_result` — is invoked, and `begin_request` returns the
error; the error propagates through message handling, so the agent loop exits
with that error instead of continuing. -/
theorem beginRequest_failure_spec (requests : RequestSlab) (e : Error)
    (st : LoopState) (rest : List AgentMsg) :
    (beginRequest requests (Except.error e)).requests = requests
    ∧ (beginRequest requests (Except.error e)).handlerEvents = []
    ∧ (beginRequest requests (Except.error e)).outcome = Except.error e
    ∧ (st.closeRequested = false →
        processMessages st (AgentMsg.execute (Except.error e) :: rest) = Except.error e) := by
  refine ⟨rfl, rfl, rfl, fun h => ?_⟩
  simp [processMessages, h, handleMessage, beginRequest]

/-- C3 witness: a failing registration on a one-element slab leaves the slab
unchanged and makes the loop exit with the error. -/
theorem beginRequest_failure_spec_witness :
    (beginRequest [some ()] (Except.error Error.aborted)).requests = [some ()]
    ∧ processMessages ⟨[some ()], false, []⟩ [AgentMsg.execute (Except.error Error.aborted)]
      = Except.error Error.aborted := by
  have h := beginRequest_failure_spec [some ()] Error.aborted ⟨[some ()], false, []⟩ []
  exact ⟨h.1, h.2.2.2 rfl⟩

/-! ## Socket registration drain (`AgentContext::wait`, `src/agent.rs:497`) -/

/-- Write `v` at index `k` of a none-padded list, extending it as needed.
Used to model a token-indexed table. -/
def listSetD {α : Type} : List (Option α) → Nat → Option α → List (Option α)
  | [], 0, v => [v]
  | [], k + 1, v => none :: listSetD [] k v
  | _ :: rest, 0, v => v :: rest
  | b :: rest, k + 1, v => b :: listSetD rest k v

lemma slabGet_insert_self {α : Type} (s : List (Option α)) (a : α) :
    slabGet (slabInsert s a) (slabVacantKey s) = some a := by
  induction s with
  | nil => rfl
  | cons x rest ih =>
    cases x with
    | none => rfl
    | some b => simpa [slabInsert, slabVacantKey, slabGet] using ih

lemma slabGet_insert_ne {α : Type} (s : List (Option α)) (a : α) (k : Nat)
    (h : k ≠ slabVacantKey s) :
    slabGet (slabInsert s a) k = slabGet s k := by
  induction s generalizing k with
  | nil =>
    cases k with
    | zero => exact absurd rfl h
    | succ j => rfl
  | cons x rest ih =>
    cases x with
    | none =>
      cases k with
      | zero => exact absurd rfl h
      | succ j => rfl
    | some b =>
      cases k with
      | zero => rfl
      | succ j =>
        have hj : j ≠ slabVacantKey rest := by
          intro hc
          exact h (by simp [slabVacantKey, hc])
        simpa [slabInsert, slabGet] using ih j hj

lemma slabGet_remove_self {α : Type} (s : List (Option α)) (k : Nat) :
    slabGet (slabRemove s k) k = none := by
  induction s generalizing k with
  | nil => rfl
  | cons x rest ih =>
    cases k with
    | zero => rfl
    | succ j => simpa [slabRemove, slabGet] using ih j

lemma slabGet_remove_ne {α : Type} (s : List (Option α)) (k j : Nat) (h : j ≠ k) :
    slabGet (slabRemove s k) j = slabGet s j := by
  induction s generalizing k j with
  | nil => rfl
  | cons x rest ih =>
    cases k with
    | zero =>
      cases j with
      | zero => exact absurd rfl h
      | succ i => rfl
    | succ kk =>
      cases j with
      | zero => rfl
      | succ i =>
        have hi : i ≠ kk := fun hc => h (by rw [hc])
        simpa [slabRemove, slabGet] using ih kk i hi

lemma slabGet_setD_self {α : Type} (s : List (Option α)) (k : Nat) (v : Option α) :
    slabGet (listSetD s k v) k = v := by
  induction s generalizing k with
  | nil =>
    induction k with
    | zero => rfl
    | succ j ihk => simpa [listSetD, slabGet] using ihk
  | cons x rest ih =>
    cases k with
    | zero => rfl
    | succ j => simpa [listSetD, slabGet] using ih j

lemma slabGet_setD_ne {α : Type} (s : List (Option α)) (k : Nat) (v : Option α)
    (j : Nat) (h : j ≠ k) : slabGet (listSetD s k v) j = slabGet s j := by
  induction s generalizing k j with
  | nil =>
    induction k generalizing j with
    | zero =>
      cases j with
      | zero => exact absurd rfl h
      | succ i => rfl
    | succ kk ihk =>
      cases j with
      | zero => rfl
      | succ i =>
        have hi : i ≠ kk := fun hc => h (by rw [hc])
        simpa [listSetD, slabGet] using ihk i hi
  | cons x rest ih =>
    cases k with
    | zero =>
      cases j with
      | zero => exact absurd rfl h
      | succ i => rfl
    | succ kk =>
      cases j with
      | zero => rfl
      | succ i =>
        have hi : i ≠ kk := fun hc => h (by rw [hc])
        simpa [listSetD, slabGet] using ih kk i hi

/-- A call the agent makes into the poller while draining socket updates. -/
inductive PollerOp where
  | add (fd key : Nat) (readable writable : Bool)
  | modify (fd key : Nat) (readable writable : Bool)
  | delete (fd : Nat)

/-- A call the agent makes into the engine while draining socket updates. -/
inductive EngineOp where
  | assign (fd key : Nat)

/-- One entry of the socket-update queue, as pushed by the engine callback
registered with `multi.socket_function`: the fd, the `SocketEvents` flags
(`input`, `output`, `remove`), and the token previously assigned to the fd
(0 when none). -/
structure SockUpd where
  fd : Nat
  input : Bool
  output : Bool
  remove : Bool
  key : Nat

/-- Agent-side socket state: the socket slab (`Slab<Socket>` of fds), the
black-box engine token table as maintained by `multi.assign` and by the
engine dropping a token when it emits a remove update, and the traces of
poller and engine calls the drain performs. -/
structure SocketState where
  sockets : List (Option Nat)
  engine : List (Option Nat)
  pollerOps : List PollerOp
  engineOps : List EngineOp

/-- Processing of one queued socket update inside `AgentContext::wait`:
a remove update clears slab slot `key - 1` and deletes the fd from the
poller (and the engine, having emitted the remove, no longer tracks the
token); an update with token 0 inserts the fd into the slab, assigns
`slot + 1` to the engine, and registers the fd with the poller under the same
key; any other update modifies the poller registration in place. -/
def applyUpdate (st : SocketState) (u : SockUpd) : SocketState :=
  if u.remove then
    { st with
      sockets := slabRemove st.sockets (u.key - 1),
      engine := listSetD st.engine u.key none,
      pollerOps := st.pollerOps ++ [PollerOp.delete u.fd] }
  else if u.key = 0 then
    let key := slabVacantKey st.sockets + 1
    { sockets := slabInsert st.sockets u.fd,
      engine := listSetD st.engine key (some u.fd),
      pollerOps := st.pollerOps ++ [PollerOp.add u.fd key u.input u.output],
      engineOps := st.engineOps ++ [EngineOp.assign u.fd key] }
  else
    { st with pollerOps := st.pollerOps ++ [PollerOp.modify u.fd u.key u.input u.output] }

/-- The slab and the engine share the token-to-fd mapping: the engine tracks
fd under token `t` exactly when slab slot `t - 1` holds that fd, and token 0
is never assigned. -/
def socketInv (st : SocketState) : Prop :=
  ∀ t : Nat, slabGet st.engine t = if t = 0 then none else slabGet st.sockets (t - 1)

/-- C6: the socket-update drain keeps the slab, the engine, and the poller in
agreement.  An Add update (token 0) inserts the fd at the first vacant slab
slot and hands key `slot + 1` — strictly positive — to both the engine assign
and the poller add.  A Remove update with positive token clears slab slot
`token - 1` and deletes the fd from the poller; moreover, under the shared
mapping a Remove token for a tracked fd is necessarily positive.  Finally the
shared token-to-fd mapping (`socketInv`) is preserved by every update. -/
theorem applyUpdate_spec (st : SocketState) (u : SockUpd) :
    (u.remove = false → u.key = 0 →
      applyUpdate st u =
        { sockets := slabInsert st.sockets u.fd,
          engine := listSetD st.engine (slabVacantKey st.sockets + 1) (some u.fd),
          pollerOps := st.pollerOps
            ++ [PollerOp.add u.fd (slabVacantKey st.sockets + 1) u.input u.output],
          engineOps := st.engineOps
            ++ [EngineOp.assign u.fd (slabVacantKey st.sockets + 1)] }
      ∧ 0 < slabVacantKey st.sockets + 1
      ∧ slabGet (slabInsert st.sockets u.fd) (slabVacantKey st.sockets) = some u.fd)
    ∧ (u.remove = true → 0 < u.key →
        (applyUpdate st u).sockets = slabRemove st.sockets (u.key - 1)
        ∧ slabGet (applyUpdate st u).sockets (u.key - 1) = none
        ∧ (applyUpdate st u).pollerOps = st.pollerOps ++ [PollerOp.delete u.fd])
    ∧ (socketInv st → u.remove = true → slabGet st.engine u.key = some u.fd → 0 < u.key)
    ∧ (socketInv st → (u.remove = true → 0 < u.key) → socketInv (applyUpdate st u)) := by
  refine ⟨fun h1 h2 => ?_, fun h1 h2 => ?_, fun hinv _ hget => ?_, fun hinv hkey => ?_⟩
  · refine ⟨by simp [applyUpdate, h1, h2], Nat.succ_pos _, slabGet_insert_self st.sockets u.fd⟩
  · have hS : (applyUpdate st u).sockets = slabRemove st.sockets (u.key - 1) := by
      simp [applyUpdate, h1]
    have hP : (applyUpdate st u).pollerOps = st.pollerOps ++ [PollerOp.delete u.fd] := by
      simp [applyUpdate, h1]
    refine ⟨hS, ?_, hP⟩
    rw [hS]
    exact slabGet_remove_self st.sockets (u.key - 1)
  · rcases Nat.eq_zero_or_pos u.key with h0 | hpos
    · exfalso
      have h00 := hinv 0
      rw [h0] at hget
      simp only [if_pos rfl] at h00
      rw [h00] at hget
      exact Option.noConfusion hget
    · exact hpos
  · rcases Bool.eq_false_or_eq_true u.remove with hr | hr
    swap
    · by_cases hk : u.key = 0
      · have hEng : (applyUpdate st u).engine
            = listSetD st.engine (slabVacantKey st.sockets + 1) (some u.fd) := by
          simp [applyUpdate, hr, hk]
        have hSock : (applyUpdate st u).sockets = slabInsert st.sockets u.fd := by
          simp [applyUpdate, hr, hk]
        intro t
        rw [hEng, hSock]
        by_cases ht : t = slabVacantKey st.sockets + 1
        · subst ht
          rw [slabGet_setD_self, if_neg (by omega), Nat.add_sub_cancel]
          exact (slabGet_insert_self st.sockets u.fd).symm
        · rw [slabGet_setD_ne st.engine _ (some u.fd) t ht, hinv t]
          by_cases h0 : t = 0
          · simp [h0]
          · rw [if_neg h0, if_neg h0]
            exact (slabGet_insert_ne st.sockets u.fd (t - 1) (by omega)).symm
      · have hEng : (applyUpdate st u).engine = st.engine := by
          simp [applyUpdate, hr, hk]
        have hSock : (applyUpdate st u).sockets = st.sockets := by
          simp [applyUpdate, hr, hk]
        intro t
        rw [hEng, hSock]
        exact hinv t
    · have hpos : 0 < u.key := hkey hr
      have hEng : (applyUpdate st u).engine = listSetD st.engine u.key none := by
        simp [applyUpdate, hr]
      have hSock : (applyUpdate st u).sockets = slabRemove st.sockets (u.key - 1) := by
        simp [applyUpdate, hr]
      intro t
      rw [hEng, hSock]
      by_cases ht : t = u.key
      · subst ht
        rw [slabGet_setD_self, if_neg (by omega)]
        exact (slabGet_remove_self st.sockets (u.key - 1)).symm
      · rw [slabGet_setD_ne st.engine u.key none t ht, hinv t]
        by_cases h0 : t = 0
        · simp [h0]
        · rw [if_neg h0, if_neg h0]
          exact (slabGet_remove_ne st.sockets (u.key - 1) (t - 1) (by omega)).symm

/-- C6 witness: an Add of fd 5 on an empty state produces key 1 for both the
engine assign and the poller add; a Remove with token 1 on the resulting
state clears slot 0, deletes fd 5 from the poller, derives the positivity of
its token from the shared mapping, and preserves the mapping. -/
theorem applyUpdate_spec_witness :
    applyUpdate ⟨[], [], [], []⟩ ⟨5, true, false, false, 0⟩
      = { sockets := slabInsert [] 5,
          engine := listSetD [] (slabVacantKey ([] : List (Option Nat)) + 1) (some 5),
          pollerOps := []
            ++ [PollerOp.add 5 (slabVacantKey ([] : List (Option Nat)) + 1) true false],
          engineOps := []
            ++ [EngineOp.assign 5 (slabVacantKey ([] : List (Option Nat)) + 1)] }
    ∧ slabGet (applyUpdate ⟨[some 5], [none, some 5], [], []⟩
        ⟨5, false, false, true, 1⟩).sockets 0 = none
    ∧ (applyUpdate ⟨[some 5], [none, some 5], [], []⟩ ⟨5, false, false, true, 1⟩).pollerOps
      = [] ++ [PollerOp.delete 5]
    ∧ 0 < (1 : Nat)
    ∧ socketInv (applyUpdate ⟨[some 5], [none, some 5], [], []⟩ ⟨5, false, false, true, 1⟩) := by
  have hinv1 : socketInv ⟨[some 5], [none, some 5], [], []⟩ := by
    intro t
    rcases t with _ | t
    · rfl
    rcases t with _ | t
    · rfl
    · simp [slabGet]
  have hrem := (applyUpdate_spec ⟨[some 5], [none, some 5], [], []⟩
    ⟨5, false, false, true, 1⟩).2.1 rfl (by decide)
  refine ⟨?_, hrem.2.1, hrem.2.2, ?_, ?_⟩
  · exact ((applyUpdate_spec ⟨[], [], [], []⟩ ⟨5, true, false, false, 0⟩).1 rfl rfl).1
  · exact (applyUpdate_spec ⟨[some 5], [none, some 5], [], []⟩
      ⟨5, false, false, true, 1⟩).2.2.1 hinv1 rfl rfl
  · exact (applyUpdate_spec ⟨[some 5], [none, some 5], [], []⟩
      ⟨5, false, false, true, 1⟩).2.2.2 hinv1 (fun _ => by decide)

end Isahc
